import Mathlib

/-!
Verification of the JGB yield-curve PCA pipeline (`pca_yieldcurve.py`).

The loader `load_jgb_csv` is embedded over the grid that `pd.read_csv(path,
dtype=str)` produces: every line of the file except the first (whose values
are the placeholder column names, discarded by the code) becomes a row of
string cells, where an empty field is parsed by pandas as a missing value.
A cell is therefore `Option String`: `none` is a field that is absent at
parse time (pandas `NaN`), `some s` is the literal string `s`.

Numeric coercion (`astype("Float64")`) is modelled with exact rationals and
a decimal-literal grammar (optional sign, digits, optional fractional part);
the exotic forms Python's `float` also accepts (exponents, `inf`, padding)
are immaterial to every claim checked here.

Errors are the Python exceptions the code actually raises: `ValueError` or
`KeyError`, each carrying its message.  `pandas.DataFrame.set_index` on a
duplicated `date` label raises a `ValueError` (the exact message text is
approximated; only the class matters below).
-/

abbrev Cell := Option String

inductive PyExn where
  | valueError (msg : String)
  | keyError (msg : String)
deriving DecidableEq

/-- Python exception class of a raised error: the loader raises `ValueError`
for structural, coercion and empty-result failures and `KeyError` for a
missing date column (lines 36, 45, 53, 56). -/
def exnClass : PyExn → String
  | .valueError _ => "ValueError"
  | .keyError _ => "KeyError"

def headerMsg : String := "CSV にヘッダ行とデータ行が必要です。"

def keyMsg : String := "CSV に '基準日'（または 'date'）列が見つかりません。"

def dupDateMsg : String := "Index data must be 1-dimensional"

def emptyMsg : String := "数値データに変換した結果、利用可能な行がありません。"

def coerceMsg (s : String) : String := "could not convert string to Float64: " ++ s

/-- The clean numeric matrix returned by `load_jgb_csv`: the date index
(raw strings from the date column, `none` when the field was absent), the
remaining column labels, and the numeric rows. -/
structure CleanMatrix (α : Type) where
  index : List Cell
  cols : List Cell
  rows : List (List α)
deriving DecidableEq

/-- Rename of `基準日` to `date` (line 43); pandas `rename` relabels every
matching column. -/
def renameCols (header : List Cell) : List Cell :=
  header.map (fun c => if c = some "基準日" then some "date" else c)

/-- Position of the (unique) `date` column used by `set_index` (line 47). -/
def dateIdx (cols : List Cell) : ℕ :=
  cols.findIdx (fun c => c == some "date")

/-- Raw cell of the date column of a data row: it becomes the row's index
value (line 47), bypassing the later replacement and coercion steps. -/
def dateCell (j : ℕ) (r : List Cell) : Cell := r.getD j none

/-- Replacement of the missing-value marker: `data.replace("-", pd.NA)`
(line 50), applied to the non-index cells. -/
def replaceCell (c : Cell) : Cell := if c = some "-" then none else c

/-- Non-index cells of a data row after the marker replacement. -/
def numericPart (j : ℕ) (r : List Cell) : List Cell :=
  (r.eraseIdx j).map replaceCell

def digitsToNat (cs : List Char) : ℕ :=
  cs.foldl (fun n c => 10 * n + (c.toNat - 48)) 0

/-- Decimal-literal parse used to model `astype("Float64")` on a string
cell: optional sign, then digits with an optional single decimal point
(at least one digit overall). -/
def parseFloat? (s : String) : Option ℚ :=
  let sgn : ℚ × List Char :=
    match s.toList with
    | '-' :: r => (-1, r)
    | '+' :: r => (1, r)
    | r => (1, r)
  let intPart := sgn.2.takeWhile Char.isDigit
  let rest := sgn.2.dropWhile Char.isDigit
  match rest with
  | [] => if intPart.isEmpty then none else some (sgn.1 * digitsToNat intPart)
  | '.' :: frac =>
    if frac.all Char.isDigit && !(intPart.isEmpty && frac.isEmpty) then
      some (sgn.1 * ((digitsToNat intPart : ℚ) + (digitsToNat frac : ℚ) / (10 : ℚ) ^ frac.length))
    else none
  | _ => none

/-- Coercion of one (already replaced) cell by `astype("Float64")` (line
53): a parse-absent cell stays missing, a string cell must parse or the
whole load fails with a `ValueError`. -/
def coerceCell : Cell → Except PyExn (Option ℚ)
  | none => .ok none
  | some s =>
    match parseFloat? s with
    | some q => .ok (some q)
    | none => .error (.valueError (coerceMsg s))

def coerceRow : List Cell → Except PyExn (List (Option ℚ))
  | [] => .ok []
  | c :: cs =>
    match coerceCell c, coerceRow cs with
    | .ok o, .ok os => .ok (o :: os)
    | .error e, _ => .error e
    | .ok _, .error e => .error e

def coerceRows : List (List Cell) → Except PyExn (List (List (Option ℚ)))
  | [] => .ok []
  | r :: rs =>
    match coerceRow r, coerceRows rs with
    | .ok pr, .ok prs => .ok (pr :: prs)
    | .error e, _ => .error e
    | .ok _, .error e => .error e

/-- A coerced row survives `dropna(how="any")` iff every cell is present. -/
def rowComplete (r : List (Option ℚ)) : Bool := r.all (fun o => o.isSome)

/-- Date-column position a given input grid ends up using. -/
def loadDateIdx (df : List (List Cell)) : ℕ := dateIdx (renameCols (df.headD []))

/-- Embedding of `load_jgb_csv` (lines 34-58) over the parsed string grid
(all file lines but the first): require two rows, promote the first row to
the header, rename `基準日` to `date`, make that column the index, replace
`-` by missing in the remaining cells, coerce them to numbers, drop every
row with a missing cell, and fail if the result is empty (pandas
`DataFrame.empty` is true when either axis has length 0). -/
def load_jgb_csv (df : List (List Cell)) : Except PyExn (CleanMatrix ℚ) :=
  -- rows 0: `df.shape[0] < 2` check (lines 35-36): header-designation row plus data
  if df.length < 2 then .error (.valueError headerMsg)
  -- header promotion and `基準日 → date` rename (lines 37-43), then the
  -- `"date" not in data.columns` check (lines 44-45)
  else if (renameCols (df.headD [])).count (some "date") = 0 then .error (.keyError keyMsg)
  -- `set_index("date")` on a duplicated label fails in pandas (line 47)
  else if 1 < (renameCols (df.headD [])).count (some "date") then .error (.valueError dupDateMsg)
  else
    -- `replace("-", NA)` then `astype("Float64")` over the non-index cells
    -- (lines 50-53); a coercion failure aborts the load before any dropping
    match coerceRows (df.tail.map (numericPart (loadDateIdx df))) with
    | .error e => .error e
    | .ok parsed =>
      -- `dropna(how="any")` keeps the rows with no missing cell, then
      -- `num_df.empty` (line 55) is true when either axis has length 0
      if (((df.tail.map (dateCell (loadDateIdx df))).zip parsed).filter
            (fun p => rowComplete p.2)).length = 0
          || ((renameCols (df.headD [])).eraseIdx (loadDateIdx df)).length = 0 then
        .error (.valueError emptyMsg)
      else
        .ok ⟨(((df.tail.map (dateCell (loadDateIdx df))).zip parsed).filter
                (fun p => rowComplete p.2)).map Prod.fst,
             (renameCols (df.headD [])).eraseIdx (loadDateIdx df),
             (((df.tail.map (dateCell (loadDateIdx df))).zip parsed).filter
                (fun p => rowComplete p.2)).map (fun p => p.2.map (fun o => o.getD 0))⟩

/-- A raw cell that the cleaning treats as missing: absent at parse, or
the literal marker `-`. -/
def isMissingCell (c : Cell) : Bool := c.isNone || c == some "-"

/-- A data row is excluded iff some cell outside the date column is
missing. -/
def rowHasMissing (j : ℕ) (r : List Cell) : Bool :=
  (r.eraseIdx j).any isMissingCell

instance {ε α : Type} [DecidableEq ε] [DecidableEq α] : DecidableEq (Except ε α) := fun x y =>
  match x, y with
  | .ok a, .ok b =>
    if h : a = b then .isTrue (by rw [h]) else .isFalse (fun hh => h (Except.ok.inj hh))
  | .error a, .error b =>
    if h : a = b then .isTrue (by rw [h]) else .isFalse (fun hh => h (Except.error.inj hh))
  | .ok _, .error _ => .isFalse Except.noConfusion
  | .error _, .ok _ => .isFalse Except.noConfusion

open Matrix

/-!
The reducer `compute_pca` (lines 61-75).  The singular-value decomposition
that `sklearn.decomposition.PCA` performs is library code outside this
repository; following the spec (§4.2 steps 3-4), the fitted component
directions are an explicit parameter `W` (one row per component, as in
sklearn's `components_`), and theorems assume of it only what the library
guarantees: orthonormality.  Scores are the centered rows projected onto
the components, exactly `fit_transform`'s output.  sklearn validates
`0 ≤ n_components ≤ min(n_samples, n_features)` (raising a plain
`ValueError`); with `k : ℕ` the lower bound is vacuous, faithfully to the
fact that `PCA(n_components=0)` is accepted.
-/

/-- Message of the `ValueError` sklearn raises for an out-of-range
`n_components` (value details elided; only the class matters). -/
def pcaMsg : String := "n_components must be between 0 and min(n_samples, n_features)"

/-- The labeled, date-indexed score table `compute_pca` returns. -/
structure ScoreTable (α : Type) where
  index : List Cell
  columns : List String
  scores : List (List α)
deriving DecidableEq

/-- View of the clean matrix as a rows-by-columns matrix (`df.to_numpy()`,
line 66). -/
def toMatrix {α : Type} [Zero α] (m : CleanMatrix α) :
    Matrix (Fin m.rows.length) (Fin m.cols.length) α :=
  Matrix.of fun i j => (m.rows.get i).getD j.val 0

/-- Column-wise mean vector μ (the centering offset PCA subtracts). -/
def pcaMean {α : Type} [Field α] {n p : ℕ} (X : Matrix (Fin n) (Fin p) α) : Fin p → α :=
  fun j => (∑ i, X i j) / (n : α)

def pcaMeanMatrix {α : Type} [Field α] {n p : ℕ} (X : Matrix (Fin n) (Fin p) α) :
    Matrix (Fin n) (Fin p) α :=
  Matrix.of fun _ j => pcaMean X j

/-- The centered data matrix: μ subtracted from every row. -/
def pcaCentered {α : Type} [Field α] {n p : ℕ} (X : Matrix (Fin n) (Fin p) α) :
    Matrix (Fin n) (Fin p) α :=
  X - pcaMeanMatrix X

/-- Score matrix of `fit_transform` (line 66): each centered row projected
onto the `k` component directions (the rows of `W`). -/
def pcaScores {α : Type} [Field α] {n p k : ℕ} (W : Matrix (Fin k) (Fin p) α)
    (X : Matrix (Fin n) (Fin p) α) : Matrix (Fin n) (Fin k) α :=
  pcaCentered X * Wᵀ

/-- Modelled from the spec: the reconstruction the round-trip law speaks
about (inverse-project the scores onto the components and add back the
mean), i.e. sklearn's `inverse_transform`, which is not repository code. -/
def pcaReconstruct {α : Type} [Field α] {n p k : ℕ} (W : Matrix (Fin k) (Fin p) α)
    (X : Matrix (Fin n) (Fin p) α) : Matrix (Fin n) (Fin p) α :=
  pcaScores W X * W + pcaMeanMatrix X

/-- Component labels (lines 68-72): the conventional three names when
`n_components == 3`, else `PC1..PCk`. -/
def pcaLabels (k : ℕ) : List String :=
  if k = 3 then ["Level", "Slope", "Curvature"]
  else (List.range k).map (fun i => "PC" ++ toString (i + 1))

/-- Embedding of `compute_pca` (lines 61-75): sklearn's component-count
validation, then the score table with the promoted labels and the input's
row index. -/
def computePca {α : Type} [Field α] (m : CleanMatrix α) (k : ℕ)
    (W : Matrix (Fin k) (Fin m.cols.length) α) : Except PyExn (ScoreTable α) :=
  if k ≤ min m.rows.length m.cols.length then
    .ok ⟨m.index, pcaLabels k,
         (List.finRange m.rows.length).map
           (fun i => (List.finRange k).map (fun c => pcaScores W (toMatrix m) i c))⟩
  else .error (.valueError pcaMsg)

/-- State-passing form of `compute_pca`: the second component is the state
of the input frame after the call, traced operation by operation from the
source — `df.to_numpy()` (line 66) materializes a fresh array and
`df.index` (line 74) is a read, so the frame after the call is the frame
before it. -/
def computePcaTracked {α : Type} [Field α] (m : CleanMatrix α) (k : ℕ)
    (W : Matrix (Fin k) (Fin m.cols.length) α) :
    Except PyExn (ScoreTable α) × CleanMatrix α :=
  (computePca m k W, m)

/-- The analyzable error values `load_jgb_csv` can raise: the too-few-rows
`ValueError`, the missing-date `KeyError`, the duplicate-date-label
`ValueError`, a coercion `ValueError` naming the offending token, and the
empty-result `ValueError`. -/
def isLoaderError (e : PyExn) : Prop :=
  e = .valueError headerMsg ∨ e = .keyError keyMsg ∨ e = .valueError dupDateMsg ∨
    (∃ s, e = .valueError (coerceMsg s)) ∨ e = .valueError emptyMsg

/-- Example grid: a header, one fully numeric data row and one data row with
a `-` marker. -/
def dfMixed : List (List Cell) :=
  [[some "date", some "1Y"], [some "d1", some "1"], [some "d2", some "-"]]

/-- Example clean matrix with a single tenor column. -/
def mOneCol : CleanMatrix ℚ := ⟨[some "d"], [some "t1"], [[5]]⟩

/-- Example clean matrix with three rows and three tenor columns. -/
def mThreeCols : CleanMatrix ℚ :=
  ⟨[some "a", some "b", some "c"], [some "x", some "y", some "z"],
   [[3, 3, 3], [3, 3, 3], [3, 3, 3]]⟩

/-- Example clean matrix with two rows and two tenor columns. -/
def mTwoCols : CleanMatrix ℚ :=
  ⟨[some "d1", some "d2"], [some "t1", some "t2"], [[1, 2], [3, 4]]⟩

/-- Example clean matrix with eight rows and eight tenor columns. -/
def mEightCols : CleanMatrix ℚ :=
  ⟨List.replicate 8 none, List.replicate 8 (some "t"),
   List.replicate 8 (List.replicate 8 (0 : ℚ))⟩

lemma replaceCell_isSome (c : Cell) : (replaceCell c).isSome = !(isMissingCell c) := by
  cases c with
  | none => simp [replaceCell, isMissingCell]
  | some s =>
    by_cases hs : s = "-"
    · subst hs; simp [replaceCell, isMissingCell]
    · simp [replaceCell, isMissingCell, hs]

lemma coerceCell_ok_isSome {c : Cell} {o : Option ℚ} (h : coerceCell c = .ok o) :
    o.isSome = c.isSome := by
  cases c with
  | none => simp [coerceCell] at h; subst h; rfl
  | some s =>
    cases hp : parseFloat? s with
    | none => rw [coerceCell, hp] at h; simp at h
    | some q => rw [coerceCell, hp] at h; simp at h; subst h; rfl

lemma coerceRow_ok_complete : ∀ {cs : List Cell} {ps : List (Option ℚ)},
    coerceRow cs = .ok ps → rowComplete ps = cs.all (fun c => c.isSome)
  | [], ps, h => by
    simp [coerceRow] at h; subst h; rfl
  | c :: cs, ps, h => by
    rw [coerceRow] at h
    cases hc : coerceCell c <;> rw [hc] at h
    · simp at h
    · cases hr : coerceRow cs <;> rw [hr] at h
      · simp at h
      · simp only [Except.ok.injEq] at h
        subst h
        simp [rowComplete, List.all_cons, coerceCell_ok_isSome hc,
          ← coerceRow_ok_complete hr, rowComplete]

lemma numericPart_all_isSome (j : ℕ) (r : List Cell) :
    (numericPart j r).all (fun c => c.isSome) = !(rowHasMissing j r) := by
  rw [numericPart, rowHasMissing, List.all_map]
  induction r.eraseIdx j with
  | nil => rfl
  | cons c cs ih =>
    simp only [List.all_cons, List.any_cons, Function.comp_apply, replaceCell_isSome, ih,
      Bool.not_or]

lemma coerceRows_nil_inv {parsed : List (List (Option ℚ))}
    (h : coerceRows [] = .ok parsed) : parsed = [] := by
  simp [coerceRows] at h; exact h

lemma coerceRows_cons_inv {r : List Cell} {rs : List (List Cell)}
    {parsed : List (List (Option ℚ))} (h : coerceRows (r :: rs) = .ok parsed) :
    ∃ pr prs, coerceRow r = .ok pr ∧ coerceRows rs = .ok prs ∧ parsed = pr :: prs := by
  rw [coerceRows] at h
  cases hr : coerceRow r <;> rw [hr] at h
  · simp at h
  · cases hrs : coerceRows rs <;> rw [hrs] at h
    · simp at h
    · simp only [Except.ok.injEq] at h
      exact ⟨_, _, rfl, rfl, h.symm⟩

lemma load_ok_inv {df : List (List Cell)} {m : CleanMatrix ℚ}
    (h : load_jgb_csv df = .ok m) :
    2 ≤ df.length ∧
    (renameCols (df.headD [])).count (some "date") = 1 ∧
    ∃ parsed,
      coerceRows (df.tail.map (numericPart (loadDateIdx df))) = .ok parsed ∧
      m = ⟨(((df.tail.map (dateCell (loadDateIdx df))).zip parsed).filter
              (fun p => rowComplete p.2)).map Prod.fst,
           (renameCols (df.headD [])).eraseIdx (loadDateIdx df),
           (((df.tail.map (dateCell (loadDateIdx df))).zip parsed).filter
              (fun p => rowComplete p.2)).map (fun p => p.2.map (fun o => o.getD 0))⟩ ∧
      m.cols ≠ [] ∧ m.index ≠ [] := by
  rw [load_jgb_csv] at h
  split at h
  · simp at h
  · next h1 =>
    split at h
    · simp at h
    · next h2 =>
      split at h
      · simp at h
      · next h3 =>
        split at h
        · simp at h
        · next parsed hpar =>
          split at h
          · simp at h
          · next h4 =>
            simp only [Except.ok.injEq] at h
            simp only [Bool.or_eq_true, decide_eq_true_eq, not_or] at h4
            subst h
            refine ⟨by omega, by omega, parsed, hpar, rfl, ?_, ?_⟩
            · intro hc
              exact h4.2 (by simpa using congrArg List.length hc)
            · intro hc
              exact h4.1 (by simpa using congrArg List.length hc)

lemma kept_map_fst (j : ℕ) : ∀ (rows : List (List Cell)) (parsed : List (List (Option ℚ))),
    coerceRows (rows.map (numericPart j)) = .ok parsed →
    (((rows.map (dateCell j)).zip parsed).filter (fun p => rowComplete p.2)).map Prod.fst
      = (rows.filter (fun r => !(rowHasMissing j r))).map (dateCell j)
  | [], parsed, h => by
    rw [List.map_nil] at h
    rw [coerceRows_nil_inv h]
    rfl
  | r :: rs, parsed, h => by
    rw [List.map_cons] at h
    obtain ⟨pr, prs, hr, hrs, rfl⟩ := coerceRows_cons_inv h
    have hcomp : rowComplete pr = !(rowHasMissing j r) := by
      rw [coerceRow_ok_complete hr, numericPart_all_isSome]
    rw [List.map_cons, List.zip_cons_cons, List.filter_cons, List.filter_cons]
    simp only [hcomp]
    cases hm : rowHasMissing j r with
    | true =>
      simp only [hm, Bool.not_true, Bool.false_eq_true, if_false,
        kept_map_fst j rs prs hrs]
    | false =>
      simp only [hm, Bool.not_false, if_true, List.map_cons,
        kept_map_fst j rs prs hrs]

lemma load_index_char (df : List (List Cell)) (h : (load_jgb_csv df).isOk = true) :
    (load_jgb_csv df).map CleanMatrix.index
      = .ok ((df.tail.filter (fun r => !(rowHasMissing (loadDateIdx df) r))).map
          (dateCell (loadDateIdx df))) := by
  cases hld : load_jgb_csv df with
  | error e => rw [hld] at h; simp [Except.isOk, Except.toBool] at h
  | ok m =>
    obtain ⟨h2, hcount, parsed, hpar, hm, hcols, hidx⟩ := load_ok_inv hld
    subst hm
    simp only [Except.map, kept_map_fst (loadDateIdx df) df.tail parsed hpar]

lemma load_rows_length_char (df : List (List Cell)) (h : (load_jgb_csv df).isOk = true) :
    (load_jgb_csv df).map (fun m => m.rows.length)
      = .ok (df.tail.filter (fun r => !(rowHasMissing (loadDateIdx df) r))).length := by
  cases hld : load_jgb_csv df with
  | error e => rw [hld] at h; simp [Except.isOk, Except.toBool] at h
  | ok m =>
    obtain ⟨h2, hcount, parsed, hpar, hm, hcols, hidx⟩ := load_ok_inv hld
    subst hm
    have hlen := congrArg List.length (kept_map_fst (loadDateIdx df) df.tail parsed hpar)
    simp only [List.length_map] at hlen
    simp only [Except.map, List.length_map, hlen]

lemma count_eraseIdx_dateIdx : ∀ (l : List Cell), l.count (some "date") = 1 →
    (l.eraseIdx (dateIdx l)).count (some "date") = 0
  | [], h => by simp at h
  | c :: cs, h => by
    rw [dateIdx, List.findIdx_cons]
    cases hc : (c == some "date") with
    | true =>
      simp only [hc, cond_true, List.eraseIdx_cons_zero]
      simp [List.count_cons, hc] at h
      omega
    | false =>
      simp only [hc, cond_false, List.eraseIdx_cons_succ]
      simp only [List.count_cons, hc, if_false, Bool.false_eq_true, add_zero]
      simp only [List.count_cons, hc, if_false, Bool.false_eq_true, add_zero] at h
      simpa [dateIdx] using count_eraseIdx_dateIdx cs h

lemma renameCols_count_zero (header : List Cell)
    (h : header.all (fun c => !(c == some "基準日") && !(c == some "date")) = true) :
    (renameCols header).count (some "date") = 0 := by
  induction header with
  | nil => rfl
  | cons c cs ih =>
    simp only [List.all_cons, Bool.and_eq_true, Bool.not_eq_true'] at h
    obtain ⟨⟨hc1, hc2⟩, hcs⟩ := h
    rw [renameCols, List.map_cons]
    have hc1' : ¬(c = some "基準日") := by
      intro hh; rw [hh] at hc1; simp at hc1
    rw [if_neg hc1', List.count_cons]
    have hc2' : (c == some "date") = false := hc2
    rw [hc2']
    simpa [renameCols] using ih (by simpa using hcs)

lemma coerceCell_error_shape {c : Cell} {e : PyExn} (h : coerceCell c = .error e) :
    ∃ s, e = .valueError (coerceMsg s) := by
  cases c with
  | none => simp [coerceCell] at h
  | some s =>
    cases hp : parseFloat? s <;> rw [coerceCell, hp] at h
    · simp only [Except.error.injEq] at h
      exact ⟨s, h.symm⟩
    · simp at h

lemma coerceRow_error_shape : ∀ {cs : List Cell} {e : PyExn},
    coerceRow cs = .error e → ∃ s, e = .valueError (coerceMsg s)
  | [], e, h => by simp [coerceRow] at h
  | c :: cs, e, h => by
    rw [coerceRow] at h
    cases hc : coerceCell c <;> rw [hc] at h
    · simp only [Except.error.injEq] at h
      subst h
      exact coerceCell_error_shape hc
    · cases hr : coerceRow cs <;> rw [hr] at h
      · simp only [Except.error.injEq] at h
        subst h
        exact coerceRow_error_shape hr
      · simp at h

lemma coerceRows_error_shape : ∀ {rows : List (List Cell)} {e : PyExn},
    coerceRows rows = .error e → ∃ s, e = .valueError (coerceMsg s)
  | [], e, h => by simp [coerceRows] at h
  | r :: rs, e, h => by
    rw [coerceRows] at h
    cases hr : coerceRow r <;> rw [hr] at h
    · simp only [Except.error.injEq] at h
      subst h
      exact coerceRow_error_shape hr
    · cases hrs : coerceRows rs <;> rw [hrs] at h
      · simp only [Except.error.injEq] at h
        subst h
        exact coerceRows_error_shape hrs
      · simp at h

lemma load_error_shape (df : List (List Cell)) (e : PyExn)
    (h : load_jgb_csv df = .error e) : isLoaderError e := by
  rw [load_jgb_csv] at h
  split at h
  · simp only [Except.error.injEq] at h
    exact Or.inl h.symm
  · split at h
    · simp only [Except.error.injEq] at h
      exact Or.inr (Or.inl h.symm)
    · split at h
      · simp only [Except.error.injEq] at h
        exact Or.inr (Or.inr (Or.inl h.symm))
      · split at h
        · next e0 hpar =>
          simp only [Except.error.injEq] at h
          subst h
          exact Or.inr (Or.inr (Or.inr (Or.inl (coerceRows_error_shape hpar))))
        · split at h
          · simp only [Except.error.injEq] at h
            exact Or.inr (Or.inr (Or.inr (Or.inr h.symm)))
          · simp at h

lemma computePca_error_shape {β : Type} [Field β] (m : CleanMatrix β) (k : ℕ)
    (W : Matrix (Fin k) (Fin m.cols.length) β) (e : PyExn)
    (h : computePca m k W = .error e) : e = .valueError pcaMsg := by
  rw [computePca] at h
  split at h
  · simp at h
  · simp only [Except.error.injEq] at h
    exact h.symm

/-- C1: for every parsed input grid, the CleanMatrix returned by load
contains exactly the data rows that have no missing value (absent cell or
`-` marker) in any numeric column: its index is the date cells of exactly
the complete rows, its row count is their count, and when no data row has
a missing value the row count equals the number of data rows. -/
theorem load_keeps_exactly_complete_rows (df : List (List Cell))
    (h : (load_jgb_csv df).isOk = true) :
    (load_jgb_csv df).map CleanMatrix.index
      = .ok ((df.tail.filter (fun r => !(rowHasMissing (loadDateIdx df) r))).map
          (dateCell (loadDateIdx df))) ∧
    (load_jgb_csv df).map (fun m => m.rows.length)
      = .ok (df.tail.filter (fun r => !(rowHasMissing (loadDateIdx df) r))).length ∧
    ((∀ r ∈ df.tail, rowHasMissing (loadDateIdx df) r = false) →
      (load_jgb_csv df).map (fun m => m.rows.length) = .ok df.tail.length) := by
  refine ⟨load_index_char df h, load_rows_length_char df h, fun hall => ?_⟩
  have hfilter : df.tail.filter (fun r => !(rowHasMissing (loadDateIdx df) r)) = df.tail :=
    List.filter_eq_self.mpr (fun r hr => by rw [hall r hr]; rfl)
  rw [load_rows_length_char df h, hfilter]

/-- Witness for C1 on a grid with one complete and one `-`-marked data row. -/
theorem load_keeps_exactly_complete_rows_witness :
    (load_jgb_csv dfMixed).isOk = true ∧
    (load_jgb_csv dfMixed).map CleanMatrix.index
      = .ok ((dfMixed.tail.filter (fun r => !(rowHasMissing (loadDateIdx dfMixed) r))).map
          (dateCell (loadDateIdx dfMixed))) :=
  ⟨by decide, (load_keeps_exactly_complete_rows dfMixed (by decide)).1⟩

/-- C2: with the component count equal to the number of tenor columns and
the component directions orthonormal (which sklearn guarantees), inverse
projection plus the mean recovers the data matrix exactly — in exact
arithmetic the round-trip error is zero, hence within any tolerance. -/
theorem pca_full_rank_roundtrip {α : Type} [Field α] (m : CleanMatrix α)
    (W : Matrix (Fin m.cols.length) (Fin m.cols.length) α) (h : W * Wᵀ = 1) :
    pcaReconstruct W (toMatrix m) = toMatrix m := by
  have h2 : Wᵀ * W = 1 := Matrix.mul_eq_one_comm.mp h
  rw [pcaReconstruct, pcaScores, Matrix.mul_assoc, h2, Matrix.mul_one, pcaCentered]
  abel

/-- Witness for C2 at a one-column matrix with the identity as the
orthonormal component matrix. -/
theorem pca_full_rank_roundtrip_witness :
    ((1 : Matrix (Fin mOneCol.cols.length) (Fin mOneCol.cols.length) ℚ)
        * (1 : Matrix (Fin mOneCol.cols.length) (Fin mOneCol.cols.length) ℚ)ᵀ = 1) ∧
    pcaReconstruct (1 : Matrix (Fin mOneCol.cols.length) (Fin mOneCol.cols.length) ℚ)
        (toMatrix mOneCol) = toMatrix mOneCol :=
  ⟨by simp, pca_full_rank_roundtrip mOneCol 1 (by simp)⟩

/-- C3: every successful fit labels the score columns Level, Slope,
Curvature when k is 3 and PC1..PCk otherwise, for every matrix and every
component matrix, so independently of the data. -/
theorem compute_pca_labels {α : Type} [Field α] (m : CleanMatrix α) (k : ℕ)
    (W : Matrix (Fin k) (Fin m.cols.length) α)
    (h : (computePca m k W).isOk = true) :
    (computePca m k W).map ScoreTable.columns
      = .ok (if k = 3 then ["Level", "Slope", "Curvature"]
             else (List.range k).map (fun i => "PC" ++ toString (i + 1))) := by
  by_cases hk : k ≤ min m.rows.length m.cols.length
  · rw [computePca, if_pos hk]
    simp [Except.map, pcaLabels]
  · rw [computePca, if_neg hk] at h
    simp [Except.isOk, Except.toBool] at h

/-- Witness for C3 at a three-column matrix with k = 3. -/
theorem compute_pca_labels_witness :
    (computePca mThreeCols 3
        (1 : Matrix (Fin mThreeCols.cols.length) (Fin mThreeCols.cols.length) ℚ)).isOk = true ∧
    (computePca mThreeCols 3
        (1 : Matrix (Fin mThreeCols.cols.length) (Fin mThreeCols.cols.length) ℚ)).map
        ScoreTable.columns
      = .ok ["Level", "Slope", "Curvature"] := by
  refine ⟨by decide, ?_⟩
  simpa using compute_pca_labels mThreeCols 3
    (1 : Matrix (Fin mThreeCols.cols.length) (Fin mThreeCols.cols.length) ℚ) (by decide)

/-- C4: the code accepts `n_components = 0` without any error (sklearn's
bound is `0 ≤ k ≤ min(n_samples, n_features)`), returning an empty score
table, and rejects k larger than the bound with a plain `ValueError`; the
claimed `InvalidParameterError` for every k < 1 is not raised. -/
theorem compute_pca_accepts_out_of_range_k :
    computePca mTwoCols 0 (0 : Matrix (Fin 0) (Fin mTwoCols.cols.length) ℚ)
      = .ok ⟨[some "d1", some "d2"], [], [[], []]⟩ ∧
    computePca mEightCols 10 (0 : Matrix (Fin 10) (Fin mEightCols.cols.length) ℚ)
      = .error (.valueError pcaMsg) := by
  constructor
  · decide
  · decide

/-- C5 counterexample: a data row whose reference-date cell is the literal
`-` is not treated as missing — the `-` survives verbatim as the row's
index value, because the date column becomes the index before the
replacement step. -/
theorem dash_in_date_column_not_missing :
    (load_jgb_csv [[some "date", some "1Y"],
        [some "-", some "0.5"], [some "d2", some "0.2"]]).map CleanMatrix.index
      = Except.ok [some "-", some "d2"] := by
  decide

/-- C5 amended: among string cells exactly the literal `-` is turned into
the missing marker, and only in the non-index (numeric) columns — the
index keeps the raw date cells of the retained rows. -/
theorem replace_exactly_dash_outside_index :
    (∀ c : Cell, replaceCell c = none ↔ (c = none ∨ c = some "-")) ∧
    (∀ df : List (List Cell), (load_jgb_csv df).isOk = true →
      (load_jgb_csv df).map CleanMatrix.index
        = .ok ((df.tail.filter (fun r => !(rowHasMissing (loadDateIdx df) r))).map
            (dateCell (loadDateIdx df)))) := by
  constructor
  · intro c
    cases c with
    | none => simp [replaceCell]
    | some s =>
      by_cases hs : s = "-"
      · subst hs; simp [replaceCell]
      · simp [replaceCell, hs]
  · exact load_index_char

/-- Witness for the amended C5. -/
theorem replace_exactly_dash_outside_index_witness :
    replaceCell (some "-") = none ∧
    (load_jgb_csv [[some "date", some "1Y"], [some "d1", some "1"]]).isOk = true ∧
    (load_jgb_csv [[some "date", some "1Y"], [some "d1", some "1"]]).map CleanMatrix.index
      = .ok (([[some "d1", some "1"]].filter
          (fun r => !(rowHasMissing
            (loadDateIdx [[some "date", some "1Y"], [some "d1", some "1"]]) r))).map
          (dateCell (loadDateIdx [[some "date", some "1Y"], [some "d1", some "1"]]))) :=
  ⟨(replace_exactly_dash_outside_index.1 (some "-")).mpr (Or.inr rfl), by decide,
   replace_exactly_dash_outside_index.2 [[some "date", some "1Y"], [some "d1", some "1"]]
     (by decide)⟩

/-- C6 counterexample: the structural too-few-rows failure and the
empty-result failure are both surfaced as the generic `ValueError` class —
the error kinds are not mutually distinguishable by exception type, only
the message texts differ. -/
theorem format_and_empty_share_exception_class :
    load_jgb_csv ([] : List (List Cell)) = Except.error (PyExn.valueError headerMsg) ∧
    load_jgb_csv [[some "date", some "1Y"], [some "d", some "-"]]
      = Except.error (PyExn.valueError emptyMsg) ∧
    exnClass (PyExn.valueError headerMsg) = exnClass (PyExn.valueError emptyMsg) ∧
    PyExn.valueError headerMsg ≠ PyExn.valueError emptyMsg := by
  refine ⟨by decide, by decide, rfl, by decide⟩

/-- C6 amended: every loader failure is one of five specific exception
values and every reducer failure is the sklearn parameter `ValueError`;
the values are distinguishable by message, but the format, empty-result
and parameter errors all share the generic `ValueError` class, only the
missing-date failure being a distinct `KeyError`. -/
theorem load_errors_distinguishable_by_value :
    (∀ (df : List (List Cell)) (e : PyExn), load_jgb_csv df = .error e → isLoaderError e) ∧
    (∀ (β : Type) (inst : Field β) (m : CleanMatrix β) (k : ℕ)
        (W : Matrix (Fin k) (Fin m.cols.length) β) (e : PyExn),
        @computePca β inst m k W = .error e → e = .valueError pcaMsg) ∧
    (PyExn.valueError headerMsg ≠ PyExn.valueError emptyMsg ∧
     PyExn.keyError keyMsg ≠ PyExn.valueError headerMsg ∧
     PyExn.valueError emptyMsg ≠ PyExn.valueError dupDateMsg) ∧
    (exnClass (PyExn.valueError headerMsg) = "ValueError" ∧
     exnClass (PyExn.valueError emptyMsg) = "ValueError" ∧
     exnClass (PyExn.keyError keyMsg) = "KeyError") := by
  refine ⟨load_error_shape, ?_, ⟨by decide, by decide, by decide⟩, rfl, rfl, rfl⟩
  intro β inst m k W e h
  exact computePca_error_shape m k W e h

/-- Witness for the amended C6. -/
theorem load_errors_distinguishable_by_value_witness :
    load_jgb_csv [[some "x"]] = Except.error (PyExn.valueError headerMsg) ∧
    isLoaderError (PyExn.valueError headerMsg) :=
  ⟨by decide, load_errors_distinguishable_by_value.1 [[some "x"]] _ (by decide)⟩

/-- C7: when the input reaches the cleaning step (two rows, a unique date
column, all numeric cells coercible) and every data row has a missing
cell, load fails with the empty-result error rather than returning an
empty matrix. -/
theorem load_all_rows_dropped_empty_error (df : List (List Cell))
    (parsed : List (List (Option ℚ)))
    (h2 : 2 ≤ df.length)
    (hcount : (renameCols (df.headD [])).count (some "date") = 1)
    (hpar : coerceRows (df.tail.map (numericPart (loadDateIdx df))) = .ok parsed)
    (hall : ∀ r ∈ df.tail, rowHasMissing (loadDateIdx df) r = true) :
    load_jgb_csv df = .error (.valueError emptyMsg) := by
  rw [load_jgb_csv, if_neg (by omega), if_neg (by omega), if_neg (by omega)]
  rw [hpar]
  dsimp only
  have hfst := kept_map_fst (loadDateIdx df) df.tail parsed hpar
  have hfilter : df.tail.filter (fun r => !(rowHasMissing (loadDateIdx df) r)) = [] := by
    rw [List.filter_eq_nil_iff]
    intro r hr
    simp [hall r hr]
  rw [hfilter] at hfst
  simp only [List.map_nil, List.map_eq_nil_iff] at hfst
  rw [hfst]
  simp

/-- Witness for C7 on a grid whose single data row carries a `-` marker. -/
theorem load_all_rows_dropped_empty_error_witness :
    2 ≤ ([[some "date", some "1Y"], [some "d", some "-"]] : List (List Cell)).length ∧
    (renameCols (([[some "date", some "1Y"],
        [some "d", some "-"]] : List (List Cell)).headD [])).count (some "date") = 1 ∧
    coerceRows (([[some "date", some "1Y"], [some "d", some "-"]] : List (List Cell)).tail.map
        (numericPart (loadDateIdx [[some "date", some "1Y"], [some "d", some "-"]])))
      = .ok [[none]] ∧
    load_jgb_csv [[some "date", some "1Y"], [some "d", some "-"]]
      = .error (.valueError emptyMsg) :=
  ⟨by decide, by decide, by decide,
   load_all_rows_dropped_empty_error [[some "date", some "1Y"], [some "d", some "-"]] [[none]]
     (by decide) (by decide) (by decide) (by decide)⟩

/-- C8: with neither the Japanese reference-date label nor `date` in the
promoted header, load fails with the `KeyError`; with a unique date-like
column, the output has no `date` data column, its columns are the header
minus the date column, and its index is the date column's retained values. -/
theorem load_date_column_required_and_promoted (df : List (List Cell)) :
    (2 ≤ df.length →
      (df.headD []).all (fun c => !(c == some "基準日") && !(c == some "date")) = true →
      load_jgb_csv df = .error (.keyError keyMsg)) ∧
    ((renameCols (df.headD [])).count (some "date") = 1 →
      (load_jgb_csv df).isOk = true →
      (load_jgb_csv df).map (fun m => m.cols.count (some "date")) = .ok 0 ∧
      (load_jgb_csv df).map CleanMatrix.cols
        = .ok ((renameCols (df.headD [])).eraseIdx (loadDateIdx df)) ∧
      (load_jgb_csv df).map CleanMatrix.index
        = .ok ((df.tail.filter (fun r => !(rowHasMissing (loadDateIdx df) r))).map
            (dateCell (loadDateIdx df)))) := by
  constructor
  · intro h2 hnone
    rw [load_jgb_csv, if_neg (by omega), if_pos (renameCols_count_zero _ hnone)]
  · intro hcount hok
    cases hld : load_jgb_csv df with
    | error e => rw [hld] at hok; simp [Except.isOk, Except.toBool] at hok
    | ok m =>
      obtain ⟨h2, hcount', parsed, hpar, hm, hcols, hidx⟩ := load_ok_inv hld
      subst hm
      refine ⟨?_, rfl, ?_⟩
      · simp only [Except.map, Except.ok.injEq]
        exact count_eraseIdx_dateIdx _ hcount
      · simp only [Except.map, kept_map_fst (loadDateIdx df) df.tail parsed hpar]

/-- Witness for C8 on a grid whose header carries the Japanese label. -/
theorem load_date_column_required_and_promoted_witness :
    (renameCols (([[some "基準日", some "1Y"],
        [some "d", some "2"]] : List (List Cell)).headD [])).count (some "date") = 1 ∧
    (load_jgb_csv [[some "基準日", some "1Y"], [some "d", some "2"]]).isOk = true ∧
    (load_jgb_csv [[some "基準日", some "1Y"], [some "d", some "2"]]).map
        (fun m => m.cols.count (some "date")) = .ok 0 :=
  ⟨by decide, by decide,
   ((load_date_column_required_and_promoted
       [[some "基準日", some "1Y"], [some "d", some "2"]]).2 (by decide) (by decide)).1⟩

/-- C9: any input with fewer than two rows fails with the format error,
whatever its contents, so before any cleaning is attempted. -/
theorem load_requires_two_rows (df : List (List Cell)) (h : df.length < 2) :
    load_jgb_csv df = .error (.valueError headerMsg) := by
  rw [load_jgb_csv, if_pos h]

/-- Witness for C9 on a one-row input. -/
theorem load_requires_two_rows_witness :
    ([[some "x"]] : List (List Cell)).length < 2 ∧
    load_jgb_csv [[some "x"]] = .error (.valueError headerMsg) :=
  ⟨by decide, load_requires_two_rows [[some "x"]] (by decide)⟩

/-- C10: the reducer does not mutate its input — the frame state after the
call equals the state before it — and the returned score table is a fresh
table carrying the input's row index, with one score row per input row. -/
theorem compute_pca_preserves_input {α : Type} [Field α] (m : CleanMatrix α) (k : ℕ)
    (W : Matrix (Fin k) (Fin m.cols.length) α) :
    (computePcaTracked m k W).2 = m ∧
    (computePca m k W).map ScoreTable.index = (computePca m k W).map (fun _ => m.index) ∧
    (computePca m k W).map (fun st => st.scores.length)
      = (computePca m k W).map (fun _ => m.rows.length) := by
  refine ⟨rfl, ?_, ?_⟩
  · rw [computePca]
    split
    · simp [Except.map]
    · rfl
  · rw [computePca]
    split
    · simp [Except.map]
    · rfl
